import Mathlib

/-!
Verification development for the tiled-TIFF JPEG tile reader
(`server/tilesource/tiff_reader.py`, class `TiledTiffDirectory`) and the
pyramid-level arithmetic exercised by `plugin_tests/tiles_test.py`.

The reader is shallowly embedded: libtiff is modelled as an abstract
directory record (`TiffDir`) holding the tag values and raw buffers that
the Python code queries through ctypes, plus the tile-geometry functions
(`TIFFCheckTile`, `TIFFComputeTile`, `TIFFNumberOfTiles`) translated from
libtiff's documented semantics.  Byte strings are `List Nat`, exceptions
are an explicit `Except` result, and the little bit of per-instance
mutable state (the memoized JPEG-tables blob) is explicit state passing.
-/

set_option autoImplicit false

namespace TiffReader

/-- Byte strings (Python `bytes`); each element is one byte value. -/
abbrev Bytes := List Nat

/-! libtiff constants, named as in `libtiff_ctypes`. -/

/-- `SAMPLEFORMAT_UINT` -/
def SAMPLEFORMAT_UINT : Nat := 1
/-- `PLANARCONFIG_CONTIG` -/
def PLANARCONFIG_CONTIG : Nat := 1
/-- `PHOTOMETRIC_RGB` -/
def PHOTOMETRIC_RGB : Nat := 2
/-- `PHOTOMETRIC_YCBCR` -/
def PHOTOMETRIC_YCBCR : Nat := 6
/-- `ORIENTATION_TOPLEFT` -/
def ORIENTATION_TOPLEFT : Nat := 1
/-- `COMPRESSION_JPEG` -/
def COMPRESSION_JPEG : Nat := 7
/-- `JPEGTABLESMODE_QUANT` -/
def JPEGTABLESMODE_QUANT : Nat := 1
/-- `JPEGTABLESMODE_HUFF` -/
def JPEGTABLESMODE_HUFF : Nat := 2
/-- `TIFFDataType.TIFF_SHORT` -/
def TIFF_SHORT : Nat := 3
/-- `TIFFDataType.TIFF_LONG8` (BigTIFF 64-bit unsigned, patched in by `patchLibtiff`) -/
def TIFF_LONG8 : Nat := 16

/-- The distinct exception messages raised by `tiff_reader.py`, as symbolic
constants.  Each constructor's doc comment gives the literal Python text. -/
inductive TiffMsg where
  /-- literal text: Only RGB TIFF files are supported -/
  | onlyRGB
  /-- literal text: Only single-byte sampled TIFF files are supported -/
  | onlySingleByte
  /-- literal text: Only unsigned int sampled TIFF files are supported -/
  | onlyUnsignedInt
  /-- literal text: Only contiguous planar configuration TIFF files are supported -/
  | onlyContigPlanar
  /-- literal text: Only RGB and YCbCr photometric interpretation TIFF files are supported -/
  | onlyRGBorYCbCr
  /-- literal text: Only top-left orientation TIFF files are supported -/
  | onlyTopLeft
  /-- literal text: Only JPEG compression TIFF files are supported -/
  | onlyJPEGCompression
  /-- literal text: Only tiled TIFF files are supported -/
  | onlyTiled
  /-- literal text: Non-square TIFF tiles are not supported -/
  | onlySquareTiles
  /-- literal text: Only TIFF files with separate Huffman and quantization tables are supported -/
  | onlySeparateTables
  /-- literal text: Could not open TIFF file: %s -/
  | couldNotOpenFile
  /-- literal text: Could not set TIFF directory to %d -/
  | couldNotSetDirectory (n : Nat)
  /-- literal text: Could not get JPEG Huffman / quantization tables -/
  | couldNotGetTables
  /-- literal text: Missing JPEG Start Of Image marker in tables -/
  | missingSOITables
  /-- literal text: Missing JPEG End Of Image marker in tables -/
  | missingEOITables
  /-- literal text: Missing JPEG Huffman or Quantization Table marker -/
  | missingTableMarker
  /-- literal text: Tile x=%d, y=%d does not exist -/
  | tileDoesNotExist (x y : Nat)
  /-- literal text: Invalid type for TIFFTAG_TILEBYTECOUNTS: %s -/
  | invalidByteCountsType (t : Nat)
  /-- literal text: Tile number out of range -/
  | tileNumOutOfRange
  /-- literal text: Could not get raw tile size -/
  | couldNotGetRawTileSize
  /-- literal text: Failed to read raw tile -/
  | failedToReadRawTile
  /-- literal text: Buffer underflow when reading tile -/
  | bufferUnderflow
  /-- literal text: Buffer overflow when reading tile -/
  | bufferOverflow
  /-- literal text: Missing JPEG Start Of Image marker in frame -/
  | missingSOIFrame
  /-- literal text: Missing JPEG End Of Image marker in frame -/
  | missingEOIFrame
  /-- literal text: Missing JPEG Start Of Frame marker -/
  | missingSOFMarker
  deriving DecidableEq

/-- The exception classes of `tiff_reader.py`.  `invalidOperation` is
`InvalidOperationTiffException` (an invalid request by the user, the
RangeError class of the spec), `ioErr` is `IOTiffException`, `validation`
is `ValidationTiffException`.  `typeErr` models a Python `TypeError`: at
`_open`, line 112, the message expression
`'TIFF file does not exist: ' % filePath` applies `%` to a format string
with no conversion specifier, which in Python 2 raises
`TypeError: not all arguments converted during string formatting` before
the intended `InvalidOperationTiffException` can be constructed. -/
inductive TiffErr where
  | invalidOperation (m : TiffMsg)
  | ioErr (m : TiffMsg)
  | validation (m : TiffMsg)
  | typeErr
  deriving DecidableEq

/-- One TIFF image file directory as seen through libtiff.  Option-valued
fields model `GetField` returning `None` when a tag is absent; `none` for
the two raw buffers models the corresponding `TIFFGetField` call returning
a value other than 1.  `readRawTileBytes tileNum size` models
`TIFFReadRawTile`: `none` is a return of -1, `some bs` means `bs` was
placed in the caller's buffer and `len bs` returned. -/
structure TiffDir where
  samplesPerPixel : Option Nat
  bitsPerSample : Option Nat
  sampleFormat : Option Nat
  planarConfig : Option Nat
  photometric : Option Nat
  orientation : Option Nat
  compression : Option Nat
  isTiled : Bool
  tileWidth : Option Nat
  tileLength : Option Nat
  jpegTablesMode : Option Nat
  imageWidth : Nat
  imageHeight : Nat
  jpegTables : Option Bytes
  tileByteCountsFieldType : Nat
  tileByteCountsMem : Option Bytes
  readRawTileBytes : Nat → Nat → Option Bytes

/-- `TiledTiffDirectory._validate` (lines 130-169): the strict structural
checks, in source order; the first failing check raises its
`ValidationTiffException`.  A `GetField` result of `None` fails an
equality check exactly as in Python (`None != 3` is true). -/
def _validate (d : TiffDir) : Except TiffErr Unit :=
  if d.samplesPerPixel ≠ some 3 then
    .error (.validation .onlyRGB)
  else if d.bitsPerSample ≠ some 8 then
    .error (.validation .onlySingleByte)
  else if ¬ (d.sampleFormat = none ∨ d.sampleFormat = some SAMPLEFORMAT_UINT) then
    .error (.validation .onlyUnsignedInt)
  else if d.planarConfig ≠ some PLANARCONFIG_CONTIG then
    .error (.validation .onlyContigPlanar)
  else if ¬ (d.photometric = some PHOTOMETRIC_RGB ∨ d.photometric = some PHOTOMETRIC_YCBCR) then
    .error (.validation .onlyRGBorYCbCr)
  else if d.orientation ≠ some ORIENTATION_TOPLEFT then
    .error (.validation .onlyTopLeft)
  else if d.compression ≠ some COMPRESSION_JPEG then
    .error (.validation .onlyJPEGCompression)
  else if d.isTiled = false then
    .error (.validation .onlyTiled)
  else if d.tileWidth ≠ d.tileLength then
    .error (.validation .onlySquareTiles)
  else if d.jpegTablesMode ≠ some (JPEGTABLESMODE_QUANT ||| JPEGTABLESMODE_HUFF) then
    .error (.validation .onlySeparateTables)
  else
    .ok ()

/-- The conjunction of the conditions `_validate` accepts, stated
positively. -/
def validationConditions (d : TiffDir) : Prop :=
  d.samplesPerPixel = some 3 ∧
  d.bitsPerSample = some 8 ∧
  (d.sampleFormat = none ∨ d.sampleFormat = some SAMPLEFORMAT_UINT) ∧
  d.planarConfig = some PLANARCONFIG_CONTIG ∧
  (d.photometric = some PHOTOMETRIC_RGB ∨ d.photometric = some PHOTOMETRIC_YCBCR) ∧
  d.orientation = some ORIENTATION_TOPLEFT ∧
  d.compression = some COMPRESSION_JPEG ∧
  d.isTiled = true ∧
  d.tileWidth = d.tileLength ∧
  d.jpegTablesMode = some (JPEGTABLESMODE_QUANT ||| JPEGTABLESMODE_HUFF)

instance (d : TiffDir) : Decidable (validationConditions d) := by
  unfold validationConditions; infer_instance

/-- The reader handle after a successful `__init__`: the directory plus
the metadata copied out by `_loadMetadata` (lines 172-175).  libtiff
guarantees that a directory with `IsTiled()` true carries the `TileWidth`
tag, so `_loadMetadata`'s `GetField('TileWidth')` is modelled with a
default of 0 for the (unreachable for tiled files) absent case. -/
structure Handle where
  dir : TiffDir
  tileSize : Nat
  imageWidth : Nat
  imageHeight : Nat

/-- The environment of one `TiledTiffDirectory(filePath, directoryNum)`
construction: whether `os.path.isfile(filePath)` holds, whether
`libtiff_ctypes.TIFF.open` succeeds (it raises `TypeError` otherwise),
whether `SetDirectory(directoryNum)` returns 1, and the directory
contents reached on success. -/
structure OpenArgs where
  fileExists : Bool
  openOk : Bool
  setDirOk : Bool
  directoryNum : Nat
  dir : TiffDir

/-- The `self._tiffFile` attribute: `none` when unset or cleared by
`_close`. -/
structure SelfState where
  tiffFile : Option TiffDir

/-- `TiledTiffDirectory.__init__` (lines 75-93) together with `_open`
(lines 100-121) and `_loadMetadata`: returns the final `self._tiffFile`
state and either the usable handle or the propagated exception.
Branches, in source order:
line 111, missing file: the `raise` line's message expression
  `'TIFF file does not exist: ' % filePath` itself raises `TypeError`
  (no conversion specifier), so that is what propagates;
line 115, `TIFF.open` raised `TypeError`: `IOTiffException`, and
  `self._tiffFile` was never assigned;
line 119, `SetDirectory` failed: `self._tiffFile.close()` is called but
  the attribute is not cleared, then `IOTiffException`;
lines 88-92: a `ValidationTiffException` from `_validate` triggers
  `self._close()` (clearing the attribute) and is re-raised. -/
def initSelf (a : OpenArgs) : SelfState × Except TiffErr Handle :=
  if a.fileExists = false then
    (⟨none⟩, .error .typeErr)
  else if a.openOk = false then
    (⟨none⟩, .error (.ioErr .couldNotOpenFile))
  else if a.setDirOk = false then
    (⟨some a.dir⟩, .error (.ioErr (.couldNotSetDirectory a.directoryNum)))
  else
    match _validate a.dir with
    | .error e => (⟨none⟩, .error e)
    | .ok _ =>
      (⟨some a.dir⟩,
        .ok ⟨a.dir, a.dir.tileWidth.getD 0, a.dir.imageWidth, a.dir.imageHeight⟩)

/-! Tile geometry, following libtiff's `TIFFCheckTile`, `TIFFComputeTile`
and `TIFFNumberOfTiles` for a single-plane, single-sample-plane directory
(the reader always passes `z = 0, sample = 0`). -/

/-- libtiff's `TIFFhowmany`: ceiling division. -/
def howmany (x d : Nat) : Nat := (x + d - 1) / d

/-- `TIFFCheckTile(tif, x, y, 0, 0)` as a Bool: the pixel coordinates must
lie inside the directory's image extent. -/
def checkTile (h : Handle) (pixelX pixelY : Nat) : Bool :=
  pixelX < h.imageWidth && pixelY < h.imageHeight

/-- `TIFFComputeTile(tif, x, y, 0, 0)`: row-major tile index of the tile
containing the pixel. -/
def computeTile (h : Handle) (pixelX pixelY : Nat) : Nat :=
  (pixelY / h.tileSize) * howmany h.imageWidth h.tileSize + pixelX / h.tileSize

/-- `TIFFNumberOfTiles(tif)`: tiles across times tiles down. -/
def numberOfTiles (h : Handle) : Nat :=
  howmany h.imageWidth h.tileSize * howmany h.imageHeight h.tileSize

/-- `TiledTiffDirectory._toTileNum` (lines 223-247): convert a (column,
row) tile index to pixel coordinates and ask libtiff whether a tile
exists there; raise `InvalidOperationTiffException` if not. -/
def _toTileNum (h : Handle) (x y : Nat) : Except TiffErr Nat :=
  let pixelX := x * h.tileSize
  let pixelY := y * h.tileSize
  if checkTile h pixelX pixelY = false then
    .error (.invalidOperation (.tileDoesNotExist x y))
  else
    .ok (computeTile h pixelX pixelY)

/-- `TiledTiffDirectory._getJpegTables` (lines 178-220), without the
memoization wrapper (modelled separately): fetch the `JPEGTABLES` buffer,
check the SOI / EOI / table markers, and strip the SOI and EOI markers.
`buf` is the `tableSize` bytes at `tableBuffer`; `buf[a:b]` slices become
`drop`/`take`. -/
def _getJpegTables (h : Handle) : Except TiffErr Bytes :=
  match h.dir.jpegTables with
  | none => .error (.ioErr .couldNotGetTables)
  | some buf =>
    if buf.take 2 ≠ [0xff, 0xd8] then
      .error (.ioErr .missingSOITables)
    else if buf.drop (buf.length - 2) ≠ [0xff, 0xd9] then
      .error (.ioErr .missingEOITables)
    else if ¬ ((buf.drop 2).take 2 = [0xff, 0xc4] ∨ (buf.drop 2).take 2 = [0xff, 0xdb]) then
      .error (.ioErr .missingTableMarker)
    else
      .ok ((buf.drop 2).take (buf.length - 4))

/-- The two ctypes element types `_getTileByteCountsType` can return. -/
inductive CTypesUInt where
  | c_uint16
  | c_uint64
  deriving DecidableEq

/-- `ctypes.sizeof` for the two element types. -/
def sizeofCType : CTypesUInt → Nat
  | .c_uint16 => 2
  | .c_uint64 => 8

/-- `TiledTiffDirectory._getTileByteCountsType` (lines 250-269):
introspect the element type of the `TILEBYTECOUNTS` array from the
field-info record; `TIFF_LONG8` gives `ctypes.c_uint64`, `TIFF_SHORT`
gives `ctypes.c_uint16`, anything else is an `IOTiffException`. -/
def _getTileByteCountsType (h : Handle) : Except TiffErr CTypesUInt :=
  if h.dir.tileByteCountsFieldType = TIFF_LONG8 then
    .ok .c_uint64
  else if h.dir.tileByteCountsFieldType = TIFF_SHORT then
    .ok .c_uint16
  else
    .error (.ioErr (.invalidByteCountsType h.dir.tileByteCountsFieldType))

/-- Little-endian (x86) value of a byte string, as read by a ctypes
integer pointer. -/
def decodeLE : Bytes → Nat
  | [] => 0
  | b :: rest => b + 256 * decodeLE rest

/-- `TiledTiffDirectory._getJpegFrameSize` (lines 272-310): bound-check
the tile number against `TIFFNumberOfTiles`, introspect the element type,
fetch the `TILEBYTECOUNTS` array (its raw memory, here `Bytes`), and read
element `tileNum` through a pointer of the introspected width. -/
def _getJpegFrameSize (h : Handle) (tileNum : Nat) : Except TiffErr Nat :=
  if numberOfTiles h ≤ tileNum then
    .error (.invalidOperation .tileNumOutOfRange)
  else
    match _getTileByteCountsType h with
    | .error e => .error e
    | .ok ty =>
      match h.dir.tileByteCountsMem with
      | none => .error (.ioErr .couldNotGetRawTileSize)
      | some mem =>
        .ok (decodeLE ((mem.drop (sizeofCType ty * tileNum)).take (sizeofCType ty)))

/-- JPEG Start Of Image marker bytes. -/
def SOI : Bytes := [0xff, 0xd8]
/-- JPEG End Of Image marker bytes. -/
def EOI : Bytes := [0xff, 0xd9]
/-- JPEG baseline-DCT Start Of Frame marker bytes. -/
def SOF0 : Bytes := [0xff, 0xc0]
/-- JPEG progressive-DCT Start Of Frame marker bytes. -/
def SOF2 : Bytes := [0xff, 0xc2]
/-- The four pad bytes `getTile` writes between the shared tables and the
frame. -/
def pad4 : Bytes := [0xff, 0xff, 0xff, 0xff]

/-- Worker for `findSub`, structurally recursive on a fuel argument so
that it evaluates by `rfl`.  Scans candidate start positions upward from
`i`; a candidate is admissible while the match fits before `stop`. -/
def findSubAux (s sub : Bytes) (stop : Nat) : Nat → Nat → Option Nat
  | 0, _ => none
  | fuel + 1, i =>
    if stop < i + sub.length then none
    else if (s.drop i).take sub.length = sub then some i
    else findSubAux s sub stop fuel (i + 1)

/-- Python `s.find(sub, start, stop)` for byte strings (with `stop`
already resolved to a nonnegative index): the least `j ≥ start` with
`j + len sub ≤ stop` and `s[j : j+len sub] = sub`, else `none`. -/
def findSub (s sub : Bytes) (start stop : Nat) : Option Nat :=
  findSubAux s sub stop (stop + 1 - start) start

/-- `TiledTiffDirectory._getJpegFrame` (lines 313-359): read the raw tile
(checking the byte count returned by `TIFFReadRawTile` against the
declared size), verify the SOI and EOI markers, locate the Start Of
Frame, and return `raw[frameStartPos:-2]`.  The scan `find(sub, 2, -2)`
resolves its end bound to `len - 2`. -/
def _getJpegFrame (h : Handle) (tileNum : Nat) : Except TiffErr Bytes :=
  match _getJpegFrameSize h tileNum with
  | .error e => .error e
  | .ok rawTileSize =>
    match h.dir.readRawTileBytes tileNum rawTileSize with
    | none => .error (.ioErr .failedToReadRawTile)
    | some bs =>
      if bs.length < rawTileSize then .error (.ioErr .bufferUnderflow)
      else if rawTileSize < bs.length then .error (.ioErr .bufferOverflow)
      else if bs.take 2 ≠ SOI then .error (.ioErr .missingSOIFrame)
      else if bs.drop (bs.length - 2) ≠ EOI then .error (.ioErr .missingEOIFrame)
      else if (bs.drop 2).take 2 = SOF0 ∨ (bs.drop 2).take 2 = SOF2 then
        .ok ((bs.drop 2).take (bs.length - 2 - 2))
      else
        match findSub bs SOF0 2 (bs.length - 2) with
        | some p => .ok ((bs.drop p).take (bs.length - 2 - p))
        | none =>
          match findSub bs SOF2 2 (bs.length - 2) with
          | some p => .ok ((bs.drop p).take (bs.length - 2 - p))
          | none => .error (.ioErr .missingSOFMarker)

/-- `TiledTiffDirectory.getTile` (lines 386-415), with the memoized
tables call replaced by its pure value (the stateful version is
`getTileSt` below): SOI, shared tables, four pad bytes, frame, EOI. -/
def getTile (h : Handle) (x y : Nat) : Except TiffErr Bytes :=
  match _toTileNum h x y with
  | .error e => .error e
  | .ok tileNum =>
    match _getJpegTables h with
    | .error e => .error e
    | .ok tables =>
      match _getJpegFrame h tileNum with
      | .error e => .error e
      | .ok frame => .ok (SOI ++ tables ++ pad4 ++ frame ++ EOI)

/-- Mutable per-instance state: the handle plus the one-slot memo of
`_getJpegTables` and a count of how many times the underlying computation
ran (for the at-most-once property). -/
structure HandleState where
  hnd : Handle
  tablesCache : Option (Except TiffErr Bytes)
  computeCount : Nat

/-- Modelled from the spec: the `instanceLruCache(1)` decorator applied to
`_getJpegTables` (the decorator lives in `server/tilesource/cache.py`,
which is not under src/).  Per the spec, the shared JPEG tables are
computed once per handle and cached, content-stable for the handle's
lifetime; as with `functools`-style caches, only successful results are
stored. -/
def getJpegTablesCached (s : HandleState) : Except TiffErr Bytes × HandleState :=
  match s.tablesCache with
  | some r => (r, s)
  | none =>
    match _getJpegTables s.hnd with
    | .ok tb =>
      (.ok tb, { s with tablesCache := some (.ok tb), computeCount := s.computeCount + 1 })
    | .error e =>
      (.error e, { s with computeCount := s.computeCount + 1 })

/-- `TiledTiffDirectory.getTile` with the instance state threaded
explicitly, so the memoized `self._getJpegTables()` call is visible. -/
def getTileSt (s : HandleState) (x y : Nat) : Except TiffErr Bytes × HandleState :=
  match _toTileNum s.hnd x y with
  | .error e => (.error e, s)
  | .ok tileNum =>
    match getJpegTablesCached s with
    | (.error e, s1) => (.error e, s1)
    | (.ok tables, s1) =>
      match _getJpegFrame s1.hnd tileNum with
      | .error e => (.error e, s1)
      | .ok frame => (.ok (SOI ++ tables ++ pad4 ++ frame ++ EOI), s1)

/-- Cache coherence: the memo slot, when filled, holds exactly the value
`_getJpegTables` computes for this handle. -/
def Coherent (s : HandleState) : Prop :=
  s.tablesCache = none ∨ s.tablesCache = some (_getJpegTables s.hnd)

/-! Spec-side definitions, used to compare the code's behaviour with the
claims' wording. -/

/-- The claim's phrase: the position of the first Start-Of-Frame marker
(baseline `0xFFC0` or progressive `0xFFC2`), at index at least 2 and
fitting before the final two bytes. -/
def specFirstSOF (s : Bytes) : Option Nat :=
  (List.range s.length).find? fun i =>
    decide (2 ≤ i ∧ i + 2 ≤ s.length - 2 ∧
      ((s.drop i).take 2 = SOF0 ∨ (s.drop i).take 2 = SOF2))

/-- The error kinds the spec's `open` contract declares: IOError or
ValidationError class. -/
def isDeclaredOpenErrKind : TiffErr → Bool
  | .ioErr _ => true
  | .validation _ => true
  | _ => false

/-- The least `k` with `n ≤ 2 ^ k`, that is `ceil(log2 n)` for `n ≥ 1`,
searched over `k < 64` (always enough here). -/
def ceilLog2 (n : Nat) : Nat :=
  ((List.range 64).filter fun k => decide (n ≤ 2 ^ k)).headD 64

/-- Modelled from the spec: the synthetic level count
`levels = ceil(log2(max(sizeX, sizeY) / tileSize)) + 1` of the pyramid
metadata resolver (that code is in the tile-source base module, not under
src/).  Since `2 ^ k` is an integer, the ceiling of `log2` of the real
quotient equals `ceilLog2` of the ceiling quotient `howmany`. -/
def specLevels (sizeX sizeY tileSize : Nat) : Nat :=
  ceilLog2 (howmany (max sizeX sizeY) tileSize) + 1

/-- Modelled from the spec: the tile-grid width at level `z`,
`ceil(size / tile * 2 ^ (z - levels + 1))`; for `z < levels` the factor
`2 ^ (z - levels + 1)` is `1 / 2 ^ (levels - 1 - z)`, so this is the
ceiling division of `size` by `tile * 2 ^ (levels - 1 - z)`.  The same
formula with `sizeY, tileHeight` gives the grid height. -/
def specTilesAcross (size tile levels z : Nat) : Nat :=
  howmany size (tile * 2 ^ (levels - 1 - z))

/-- Modelled from the spec: validity of a tile coordinate `(z, x, y)`
for an image of `sizeX` by `sizeY` pixels with square tiles of `tile`
pixels: the level exists and `x`, `y` lie in that level's grid. -/
def specValidTile (sizeX sizeY tile z x y : Nat) : Prop :=
  z < specLevels sizeX sizeY tile ∧
  x < specTilesAcross sizeX tile (specLevels sizeX sizeY tile) z ∧
  y < specTilesAcross sizeY tile (specLevels sizeX sizeY tile) z

instance (sizeX sizeY tile z x y : Nat) :
    Decidable (specValidTile sizeX sizeY tile z x y) := by
  unfold specValidTile; infer_instance

/-! Concrete fixtures used by witnesses and counterexamples. -/

/-- A shared-tables buffer passing every `_getJpegTables` check:
SOI, a DQT marker, one table byte, EOI. -/
def goodTablesBuf : Bytes := [0xff, 0xd8, 0xff, 0xdb, 0x01, 0xff, 0xd9]

/-- A raw tile frame passing every `_getJpegFrame` check with the SOF
marker directly at offset 2. -/
def goodFrameRaw : Bytes := [0xff, 0xd8, 0xff, 0xc0, 0x07, 0xff, 0xd9]

/-- A directory that passes validation and serves one 16-by-16 tile whose
raw frame is `goodFrameRaw` (7 bytes, byte-count table of 16-bit
elements). -/
def goodDir : TiffDir where
  samplesPerPixel := some 3
  bitsPerSample := some 8
  sampleFormat := none
  planarConfig := some PLANARCONFIG_CONTIG
  photometric := some PHOTOMETRIC_RGB
  orientation := some ORIENTATION_TOPLEFT
  compression := some COMPRESSION_JPEG
  isTiled := true
  tileWidth := some 16
  tileLength := some 16
  jpegTablesMode := some 3
  imageWidth := 16
  imageHeight := 16
  jpegTables := some goodTablesBuf
  tileByteCountsFieldType := TIFF_SHORT
  tileByteCountsMem := some [7, 0]
  readRawTileBytes := fun _ _ => some goodFrameRaw

/-- The handle `__init__` builds for `goodDir`. -/
def goodHandle : Handle := ⟨goodDir, 16, 16, 16⟩

/-- A fresh instance state over `goodHandle`: empty memo slot, zero
computations. -/
def freshState : HandleState := ⟨goodHandle, none, 0⟩

/-- The bytes `getTile goodHandle 0 0` produces. -/
def goodTileBytes : Bytes :=
  [0xff, 0xd8, 0xff, 0xdb, 0x01, 0xff, 0xff, 0xff, 0xff, 0xff, 0xc0, 0x07, 0xff, 0xd9]

/-- Open arguments for `goodDir` with everything succeeding. -/
def goodOpenArgs : OpenArgs :=
  ⟨true, true, true, 0, goodDir⟩

/-- `goodDir` broken to a single sample per pixel, so validation fails. -/
def badDir : TiffDir := { goodDir with samplesPerPixel := some 1 }

/-- Open arguments whose directory fails validation. -/
def badOpenArgs : OpenArgs :=
  ⟨true, true, true, 0, badDir⟩

/-- Open arguments for a path that names no file. -/
def missingFileArgs : OpenArgs :=
  ⟨false, true, true, 0, goodDir⟩

/-- A raw tile frame containing a progressive SOF marker (index 4) before
a baseline SOF marker (index 7), with neither at offset 2: exercises the
baseline-first search order. -/
def cexRaw : Bytes :=
  [0xff, 0xd8, 0x00, 0x00, 0xff, 0xc2, 0x00, 0xff, 0xc0, 0x00, 0xff, 0xd9]

/-- A directory serving `cexRaw` (12 bytes) as its only tile. -/
def cexDir : TiffDir :=
  { goodDir with
    tileByteCountsMem := some [12, 0]
    readRawTileBytes := fun _ _ => some cexRaw }

/-- Handle over `cexDir`. -/
def cexHandle : Handle := ⟨cexDir, 16, 16, 16⟩

/-- A directory with a BigTIFF 64-bit byte-count table declaring 7 bytes
for tile 0. -/
def dir64 : TiffDir :=
  { goodDir with
    tileByteCountsFieldType := TIFF_LONG8
    tileByteCountsMem := some [7, 0, 0, 0, 0, 0, 0, 0] }

/-- Handle over `dir64`. -/
def handle64 : Handle := ⟨dir64, 16, 16, 16⟩

/-- A directory whose raw read returns fewer bytes than the declared
byte count (a short read). -/
def shortReadDir : TiffDir :=
  { goodDir with readRawTileBytes := fun _ _ => some [0xff, 0xd8] }

/-- Handle over `shortReadDir`. -/
def shortReadHandle : Handle := ⟨shortReadDir, 16, 16, 16⟩

/-! Helper lemmas. -/

set_option maxHeartbeats 1000000 in
theorem validate_ok_iff (d : TiffDir) :
    _validate d = .ok () ↔ validationConditions d := by
  unfold _validate validationConditions
  split_ifs with h1 h2 h3 h4 h5 h6 h7 h8 h9 h10
  all_goals simp_all

set_option maxHeartbeats 1000000 in
theorem validate_error_validation (d : TiffDir) (e : TiffErr)
    (h : _validate d = .error e) : ∃ m, e = .validation m := by
  unfold _validate at h
  split_ifs at h <;> cases h <;> exact ⟨_, rfl⟩

theorem findSubAux_some_spec (s sub : Bytes) (stop : Nat) :
    ∀ fuel i j, findSubAux s sub stop fuel i = some j →
      i ≤ j ∧ j + sub.length ≤ stop ∧ (s.drop j).take sub.length = sub ∧
        ∀ k, i ≤ k → k < j → (s.drop k).take sub.length ≠ sub := by
  intro fuel
  induction fuel with
  | zero => intro i j h; simp [findSubAux] at h
  | succ n ih =>
    intro i j h
    rw [findSubAux] at h
    by_cases h1 : stop < i + sub.length
    · rw [if_pos h1] at h; cases h
    · rw [if_neg h1] at h
      by_cases h2 : (s.drop i).take sub.length = sub
      · rw [if_pos h2] at h
        cases h
        exact ⟨Nat.le_refl _, by omega, h2,
          fun k hik hkj => absurd hkj (Nat.not_lt.mpr hik)⟩
      · rw [if_neg h2] at h
        obtain ⟨hij, hstop, hmatch, hmin⟩ := ih (i + 1) j h
        refine ⟨by omega, hstop, hmatch, fun k hik hkj => ?_⟩
        rcases Nat.eq_or_lt_of_le hik with heq | hlt
        · rw [← heq]; exact h2
        · exact hmin k hlt hkj

theorem findSubAux_none_spec (s sub : Bytes) (stop : Nat) :
    ∀ fuel i, stop + 1 ≤ i + fuel → findSubAux s sub stop fuel i = none →
      ∀ k, i ≤ k → k + sub.length ≤ stop → (s.drop k).take sub.length ≠ sub := by
  intro fuel
  induction fuel with
  | zero =>
    intro i hfuel _ k hik hk
    exact absurd hk (by omega)
  | succ n ih =>
    intro i hfuel h k hik hk
    rw [findSubAux] at h
    by_cases h1 : stop < i + sub.length
    · exact absurd hk (by omega)
    · rw [if_neg h1] at h
      by_cases h2 : (s.drop i).take sub.length = sub
      · rw [if_pos h2] at h; cases h
      · rw [if_neg h2] at h
        rcases Nat.eq_or_lt_of_le hik with heq | hlt
        · rw [← heq]; exact h2
        · exact ih (i + 1) (by omega) h k hlt hk

theorem findSub_some_spec (s sub : Bytes) (start stop j : Nat)
    (h : findSub s sub start stop = some j) :
    start ≤ j ∧ j + sub.length ≤ stop ∧ (s.drop j).take sub.length = sub ∧
      ∀ k, start ≤ k → k < j → (s.drop k).take sub.length ≠ sub :=
  findSubAux_some_spec s sub stop _ start j h

theorem findSub_none_spec (s sub : Bytes) (start stop : Nat)
    (h : findSub s sub start stop = none) :
    ∀ k, start ≤ k → k + sub.length ≤ stop → (s.drop k).take sub.length ≠ sub :=
  findSubAux_none_spec s sub stop _ start (by omega) h

theorem take_eq_cons_head {l r : Bytes} {n a : Nat} (h : l.take n = a :: r) :
    ∃ t, l = a :: t := by
  cases l with
  | nil => simp at h
  | cons x xs =>
    cases n with
    | zero => simp at h
    | succ m =>
      rw [List.take_succ_cons] at h
      exact ⟨xs, by rw [(List.cons.injEq _ _ _ _).mp h |>.1]⟩

theorem frame_marker_length (bs : Bytes) (c : Nat)
    (hEOI : bs.drop (bs.length - 2) = [0xff, 0xd9])
    (hp2 : (bs.drop 2).take 2 = [0xff, c])
    (hc1 : c ≠ 0xd9) (hc2 : c ≠ 0xff) : 6 ≤ bs.length := by
  have hlen4 : 4 ≤ bs.length := by
    have hl := congrArg List.length hp2
    simp [List.length_take, List.length_drop] at hl
    omega
  have h3 : bs[3]? = some c := by
    have h1 : ((bs.drop 2).take 2)[1]? = some c := by rw [hp2]; rfl
    rw [List.getElem?_take_of_lt (by omega), List.getElem?_drop] at h1
    exact h1
  have hE0 : bs[bs.length - 2]? = some 0xff := by
    have h1 : (bs.drop (bs.length - 2))[0]? = some 0xff := by rw [hEOI]; rfl
    rw [List.getElem?_drop] at h1
    simpa using h1
  have hE1 : bs[bs.length - 1]? = some 0xd9 := by
    have h1 : (bs.drop (bs.length - 2))[1]? = some 0xd9 := by rw [hEOI]; rfl
    rw [List.getElem?_drop] at h1
    rwa [show bs.length - 2 + 1 = bs.length - 1 from by omega] at h1
  by_contra hno
  have hcase : bs.length = 4 ∨ bs.length = 5 := by omega
  rcases hcase with h | h
  · rw [show bs.length - 1 = 3 from by omega] at hE1
    rw [h3] at hE1
    exact hc1 (Option.some.inj hE1)
  · rw [show bs.length - 2 = 3 from by omega] at hE0
    rw [h3] at hE0
    exact hc2 (Option.some.inj hE0)

theorem getJpegFrame_ok_decomp (h : Handle) (t : Nat) (frame : Bytes)
    (hok : _getJpegFrame h t = .ok frame) :
    ∃ sz bs p, _getJpegFrameSize h t = .ok sz ∧
      h.dir.readRawTileBytes t sz = some bs ∧ bs.length = sz ∧
      bs.take 2 = SOI ∧ bs.drop (bs.length - 2) = EOI ∧
      2 ≤ p ∧ p + 2 ≤ bs.length - 2 ∧
      ((bs.drop p).take 2 = SOF0 ∨ (bs.drop p).take 2 = SOF2) ∧
      frame = (bs.drop p).take (bs.length - 2 - p) := by
  unfold _getJpegFrame at hok
  cases hsz : _getJpegFrameSize h t with
  | error e => rw [hsz] at hok; cases hok
  | ok sz =>
    rw [hsz] at hok
    dsimp only at hok
    cases hrd : h.dir.readRawTileBytes t sz with
    | none => rw [hrd] at hok; cases hok
    | some bs =>
      rw [hrd] at hok
      dsimp only at hok
      by_cases hlt : bs.length < sz
      · rw [if_pos hlt] at hok; cases hok
      rw [if_neg hlt] at hok
      by_cases hgt : sz < bs.length
      · rw [if_pos hgt] at hok; cases hok
      rw [if_neg hgt] at hok
      have hlen : bs.length = sz := by omega
      by_cases hsoi : bs.take 2 ≠ SOI
      · rw [if_pos hsoi] at hok; cases hok
      rw [if_neg hsoi] at hok
      rw [not_not] at hsoi
      by_cases heoi : bs.drop (bs.length - 2) ≠ EOI
      · rw [if_pos heoi] at hok; cases hok
      rw [if_neg heoi] at hok
      rw [not_not] at heoi
      by_cases hfast : (bs.drop 2).take 2 = SOF0 ∨ (bs.drop 2).take 2 = SOF2
      · rw [if_pos hfast] at hok
        cases hok
        have hlen6 : 6 ≤ bs.length := by
          rcases hfast with hf | hf
          · exact frame_marker_length bs 0xc0 heoi hf (by omega) (by omega)
          · exact frame_marker_length bs 0xc2 heoi hf (by omega) (by omega)
        exact ⟨sz, bs, 2, rfl, hrd, hlen, hsoi, heoi, Nat.le_refl 2,
          by omega, hfast, rfl⟩
      · rw [if_neg hfast] at hok
        cases hf0 : findSub bs SOF0 2 (bs.length - 2) with
        | some p =>
          rw [hf0] at hok
          cases hok
          obtain ⟨hp2, hfit, hmatch, _⟩ := findSub_some_spec bs SOF0 2 _ p hf0
          exact ⟨sz, bs, p, rfl, hrd, hlen, hsoi, heoi, hp2,
            by simpa [SOF0] using hfit, Or.inl hmatch, rfl⟩
        | none =>
          rw [hf0] at hok
          cases hf2 : findSub bs SOF2 2 (bs.length - 2) with
          | some p =>
            rw [hf2] at hok
            cases hok
            obtain ⟨hp2, hfit, hmatch, _⟩ := findSub_some_spec bs SOF2 2 _ p hf2
            exact ⟨sz, bs, p, rfl, hrd, hlen, hsoi, heoi, hp2,
              by simpa [SOF2] using hfit, Or.inr hmatch, rfl⟩
          | none => rw [hf2] at hok; cases hok

theorem getJpegFrame_ok_sof (h : Handle) (t : Nat) (frame : Bytes)
    (hok : _getJpegFrame h t = .ok frame) :
    frame.take 2 = SOF0 ∨ frame.take 2 = SOF2 := by
  obtain ⟨sz, bs, p, _, _, _, _, _, _, hfit, hmk, hfr⟩ :=
    getJpegFrame_ok_decomp h t frame hok
  have hmin : min 2 (bs.length - 2 - p) = 2 := by omega
  rw [hfr, List.take_take, hmin]
  exact hmk

theorem getJpegTables_ok_shape (h : Handle) (tables : Bytes)
    (hok : _getJpegTables h = .ok tables) :
    tables = [] ∨ ∃ r, tables = 0xff :: r := by
  unfold _getJpegTables at hok
  cases hbuf : h.dir.jpegTables with
  | none => rw [hbuf] at hok; cases hok
  | some buf =>
    rw [hbuf] at hok
    dsimp only at hok
    by_cases h1 : buf.take 2 ≠ [0xff, 0xd8]
    · rw [if_pos h1] at hok; cases hok
    rw [if_neg h1] at hok
    by_cases h2 : buf.drop (buf.length - 2) ≠ [0xff, 0xd9]
    · rw [if_pos h2] at hok; cases hok
    rw [if_neg h2] at hok
    by_cases h3 : (buf.drop 2).take 2 = [0xff, 0xc4] ∨ (buf.drop 2).take 2 = [0xff, 0xdb]
    · rw [if_neg (not_not.mpr h3)] at hok
      cases hok
      have hhead : ∃ t2, buf.drop 2 = 0xff :: t2 := by
        rcases h3 with hm | hm
        · exact take_eq_cons_head hm
        · exact take_eq_cons_head hm
      obtain ⟨t2, ht2⟩ := hhead
      rw [ht2]
      cases hn : buf.length - 4 with
      | zero => left; rfl
      | succ k => right; exact ⟨t2.take k, rfl⟩
    · rw [if_pos h3] at hok; cases hok

theorem getTile_ok_decomp (h : Handle) (x y : Nat) (bs : Bytes)
    (hok : getTile h x y = .ok bs) :
    ∃ tileNum tables frame, _toTileNum h x y = .ok tileNum ∧
      _getJpegTables h = .ok tables ∧ _getJpegFrame h tileNum = .ok frame ∧
      bs = SOI ++ tables ++ pad4 ++ frame ++ EOI := by
  unfold getTile at hok
  cases ht : _toTileNum h x y with
  | error e => rw [ht] at hok; cases hok
  | ok tileNum =>
    rw [ht] at hok
    dsimp only at hok
    cases htb : _getJpegTables h with
    | error e => rw [htb] at hok; cases hok
    | ok tables =>
      rw [htb] at hok
      dsimp only at hok
      cases hfr : _getJpegFrame h tileNum with
      | error e => rw [hfr] at hok; cases hok
      | ok frame =>
        rw [hfr] at hok
        dsimp only at hok
        cases hok
        exact ⟨tileNum, tables, frame, rfl, rfl, hfr, rfl⟩

theorem getTile_ok_take3 (h : Handle) (x y : Nat) (bs : Bytes)
    (hok : getTile h x y = .ok bs) : bs.take 3 = [0xff, 0xd8, 0xff] := by
  obtain ⟨tileNum, tables, frame, _, htb, _, hshape⟩ := getTile_ok_decomp h x y bs hok
  have hts : tables = [] ∨ ∃ r, tables = 0xff :: r := getJpegTables_ok_shape h tables htb
  rcases hts with hts | ⟨r, hts⟩ <;>
    simp [hshape, hts, SOI, EOI, pad4, List.take_succ_cons]

theorem cached_val (s : HandleState) (hc : Coherent s) :
    (getJpegTablesCached s).1 = _getJpegTables s.hnd := by
  unfold getJpegTablesCached
  cases hcache : s.tablesCache with
  | some r =>
    rcases hc with hnone | hsome
    · rw [hcache] at hnone; cases hnone
    · rw [hcache] at hsome
      exact Option.some.inj hsome
  | none =>
    cases htb : _getJpegTables s.hnd <;> rfl

theorem cached_hnd (s : HandleState) :
    (getJpegTablesCached s).2.hnd = s.hnd := by
  unfold getJpegTablesCached
  cases s.tablesCache with
  | some r => rfl
  | none => cases _getJpegTables s.hnd <;> rfl

theorem cached_coherent (s : HandleState) (hc : Coherent s) :
    Coherent (getJpegTablesCached s).2 := by
  unfold getJpegTablesCached
  cases hcache : s.tablesCache with
  | some r => exact hc
  | none =>
    cases htb : _getJpegTables s.hnd with
    | ok tb => exact Or.inr (by simp [htb])
    | error e => exact Or.inl (by simp)

theorem cached_hit (s : HandleState) (r : Except TiffErr Bytes)
    (h : s.tablesCache = some r) : getJpegTablesCached s = (r, s) := by
  unfold getJpegTablesCached
  rw [h]

theorem cached_fills (s : HandleState) (tb : Bytes)
    (hcache : s.tablesCache = none) (htb : _getJpegTables s.hnd = .ok tb) :
    (getJpegTablesCached s).2.tablesCache = some (.ok tb) ∧
      (getJpegTablesCached s).2.computeCount = s.computeCount + 1 := by
  unfold getJpegTablesCached
  rw [hcache, htb]
  exact ⟨rfl, rfl⟩

theorem getTileSt_hnd (s : HandleState) (x y : Nat) :
    (getTileSt s x y).2.hnd = s.hnd := by
  unfold getTileSt
  cases ht : _toTileNum s.hnd x y with
  | error e => rfl
  | ok tileNum =>
    dsimp only
    cases hp : getJpegTablesCached s with
    | mk tr s1 =>
      have hhnd : s1.hnd = s.hnd := by
        have := cached_hnd s
        rw [hp] at this
        exact this
      cases tr with
      | error e => exact hhnd
      | ok tables =>
        dsimp only
        cases _getJpegFrame s1.hnd tileNum <;> exact hhnd

theorem getTileSt_coherent (s : HandleState) (x y : Nat) (hc : Coherent s) :
    Coherent (getTileSt s x y).2 := by
  unfold getTileSt
  cases ht : _toTileNum s.hnd x y with
  | error e => exact hc
  | ok tileNum =>
    dsimp only
    cases hp : getJpegTablesCached s with
    | mk tr s1 =>
      have hco : Coherent s1 := by
        have := cached_coherent s hc
        rw [hp] at this
        exact this
      cases tr with
      | error e => exact hco
      | ok tables =>
        dsimp only
        cases _getJpegFrame s1.hnd tileNum <;> exact hco

theorem getTileSt_val (s : HandleState) (x y : Nat) (hc : Coherent s) :
    (getTileSt s x y).1 = getTile s.hnd x y := by
  unfold getTileSt getTile
  cases ht : _toTileNum s.hnd x y with
  | error e => rfl
  | ok tileNum =>
    dsimp only
    cases hp : getJpegTablesCached s with
    | mk tr s1 =>
      have hval : tr = _getJpegTables s.hnd := by
        have := cached_val s hc
        rw [hp] at this
        exact this
      have hhnd : s1.hnd = s.hnd := by
        have := cached_hnd s
        rw [hp] at this
        exact this
      cases htb : _getJpegTables s.hnd with
      | error e => rw [htb] at hval; rw [hval]
      | ok tables =>
        rw [htb] at hval
        rw [hval]
        dsimp only
        rw [hhnd]
        cases _getJpegFrame s.hnd tileNum <;> rfl

/-! Claim theorems. -/

/-- C1: for every tile (x, y) that exists in an opened directory, a
successful `getTile` result is exactly the byte concatenation SOI marker
++ shared JPEG table bytes ++ the four pad bytes ff ff ff ff ++ frame
bytes starting at a Start-Of-Frame marker (ff c0 baseline or ff c2
progressive) ++ EOI marker; in particular its first three bytes are the
JPEG magic header ff d8 ff. -/
theorem c1_getTile_reconstruction (h : Handle) (x y : Nat) (bs : Bytes)
    (hok : getTile h x y = .ok bs) :
    ∃ tileNum tables frame,
      _toTileNum h x y = .ok tileNum ∧
      _getJpegTables h = .ok tables ∧
      _getJpegFrame h tileNum = .ok frame ∧
      bs = SOI ++ tables ++ pad4 ++ frame ++ EOI ∧
      (frame.take 2 = SOF0 ∨ frame.take 2 = SOF2) ∧
      bs.take 3 = [0xff, 0xd8, 0xff] := by
  obtain ⟨tileNum, tables, frame, ht, htb, hfr, hshape⟩ := getTile_ok_decomp h x y bs hok
  exact ⟨tileNum, tables, frame, ht, htb, hfr, hshape,
    getJpegFrame_ok_sof h tileNum frame hfr, getTile_ok_take3 h x y bs hok⟩

/-- Witness for C1 at the concrete directory `goodDir`. -/
theorem c1_witness :
    ∃ tileNum tables frame,
      _toTileNum goodHandle 0 0 = .ok tileNum ∧
      _getJpegTables goodHandle = .ok tables ∧
      _getJpegFrame goodHandle tileNum = .ok frame ∧
      goodTileBytes = SOI ++ tables ++ pad4 ++ frame ++ EOI ∧
      (frame.take 2 = SOF0 ∨ frame.take 2 = SOF2) ∧
      goodTileBytes.take 3 = [0xff, 0xd8, 0xff] :=
  c1_getTile_reconstruction goodHandle 0 0 goodTileBytes rfl

/-- C2: construction succeeds only if the directory satisfies every
strict structural check (3 samples per pixel for RGB, 8-bit unsigned
samples, contiguous planar layout, top-left orientation, JPEG
compression, tiled organization, square tiles, separate Huffman and
quantization tables); when the open stage succeeds but any check fails,
the constructor raises a `ValidationTiffException` and the handle is
closed (`self._tiffFile` is cleared) and never returned. -/
theorem c2_open_validates (a : OpenArgs) :
    (_validate a.dir = .ok () ↔ validationConditions a.dir) ∧
    (∀ st hnd, initSelf a = (st, .ok hnd) → validationConditions a.dir) ∧
    (a.fileExists = true → a.openOk = true → a.setDirOk = true →
      ¬ validationConditions a.dir →
      ∃ m, initSelf a = (⟨none⟩, .error (.validation m))) := by
  refine ⟨validate_ok_iff a.dir, ?_, ?_⟩
  · intro st hnd hinit
    unfold initSelf at hinit
    split at hinit
    · simp at hinit
    · split at hinit
      · simp at hinit
      · split at hinit
        · simp at hinit
        · split at hinit
          next e heq => simp at hinit
          next u heq =>
            cases u
            exact (validate_ok_iff a.dir).mp heq
  · intro h1 h2 h3 hnc
    have hv : _validate a.dir ≠ .ok () :=
      fun hok => hnc ((validate_ok_iff a.dir).mp hok)
    unfold initSelf
    rw [if_neg (by simp [h1]), if_neg (by simp [h2]), if_neg (by simp [h3])]
    cases hval : _validate a.dir with
    | ok u => cases u; exact absurd hval hv
    | error e =>
      obtain ⟨m, hm⟩ := validate_error_validation a.dir e hval
      exact ⟨m, by rw [hm]⟩

/-- Witness for C2: `goodDir` passes validation, and the constructor over
`badDir` (one sample per pixel) fails with a `ValidationTiffException`
leaving `self._tiffFile` cleared. -/
theorem c2_witness :
    (_validate goodDir = .ok ()) ∧
    (∃ m, initSelf badOpenArgs = (⟨none⟩, .error (.validation m))) :=
  ⟨(c2_open_validates goodOpenArgs).1.mpr (by decide),
   (c2_open_validates badOpenArgs).2.2 rfl rfl rfl (by decide)⟩

/-- C3 counterexample: for a path that names no file, the constructor
fails with a Python `TypeError` (the `raise` line's message expression
`'TIFF file does not exist: ' % filePath` has no conversion specifier),
which is neither of the contract's declared kinds IOError /
ValidationError — nor even the intended `InvalidOperationTiffException`. -/
theorem c3_counterexample :
    (initSelf missingFileArgs).2 = .error .typeErr ∧
    isDeclaredOpenErrKind .typeErr = false :=
  ⟨rfl, rfl⟩

/-- C3 (amended): opening a nonexistent path fails — the code attempts
the RangeError-class `InvalidOperationTiffException`, but evaluating its
message raises `TypeError` — with no handle returned and
`self._tiffFile` unset; a file that fails validation fails the whole open
with a `ValidationTiffException` and a cleared `self._tiffFile`; and a
handle is returned only when the file exists, the open and directory-set
steps succeed, and validation passes. -/
theorem c3_open_failure_kinds (a : OpenArgs) :
    (a.fileExists = false → initSelf a = (⟨none⟩, .error .typeErr)) ∧
    (a.fileExists = true → a.openOk = true → a.setDirOk = true →
      ∀ e, _validate a.dir = .error e →
        (∃ m, e = .validation m) ∧ initSelf a = (⟨none⟩, .error e)) ∧
    (∀ st hnd, initSelf a = (st, .ok hnd) →
      a.fileExists = true ∧ a.openOk = true ∧ a.setDirOk = true ∧
        _validate a.dir = .ok ()) := by
  refine ⟨?_, ?_, ?_⟩
  · intro h1
    unfold initSelf
    rw [if_pos h1]
  · intro h1 h2 h3 e hval
    refine ⟨validate_error_validation a.dir e hval, ?_⟩
    unfold initSelf
    rw [if_neg (by simp [h1]), if_neg (by simp [h2]), if_neg (by simp [h3]), hval]
  · intro st hnd hinit
    unfold initSelf at hinit
    split at hinit
    next h1 => simp at hinit
    next h1 =>
      split at hinit
      next h2 => simp at hinit
      next h2 =>
        split at hinit
        next h3 => simp at hinit
        next h3 =>
          split at hinit
          next e heq => simp at hinit
          next u heq =>
            cases u
            exact ⟨by simpa using h1, by simpa using h2, by simpa using h3, heq⟩

/-- Witness for C3's amended statement at concrete open arguments. -/
theorem c3_witness :
    initSelf missingFileArgs = (⟨none⟩, .error .typeErr) ∧
    ((∃ m, TiffErr.validation TiffMsg.onlyRGB = TiffErr.validation m) ∧
      initSelf badOpenArgs = (⟨none⟩, .error (.validation .onlyRGB))) :=
  ⟨(c3_open_failure_kinds missingFileArgs).1 rfl,
   (c3_open_failure_kinds badOpenArgs).2.1 rfl rfl rfl (.validation .onlyRGB) rfl⟩

/-- C4 counterexample: on the frame `cexRaw`, whose first Start-Of-Frame
marker is the progressive `ff c2` at index 4 but which also holds a
baseline `ff c0` at index 7, `_getJpegFrame` returns the bytes from
index 7, not from the first Start-Of-Frame marker: the code searches for
all of `ff c0` before trying `ff c2` at all. -/
theorem c4_counterexample :
    _getJpegFrame cexHandle 0 = .ok [0xff, 0xc0, 0x00] ∧
    specFirstSOF cexRaw = some 4 ∧
    (cexRaw.drop 4).take (cexRaw.length - 2 - 4) =
      [0xff, 0xc2, 0x00, 0xff, 0xc0, 0x00] ∧
    ([0xff, 0xc0, 0x00] : Bytes) ≠ [0xff, 0xc2, 0x00, 0xff, 0xc0, 0x00] :=
  ⟨rfl, rfl, rfl, by decide⟩

/-- C4 (amended): for a raw tile frame read at its declared size, frame
extraction strips the EOI marker and starts the frame at the position
chosen as follows: offset 2 when the bytes there are `ff c0` or `ff c2`;
otherwise the first occurrence of the baseline marker `ff c0` in the
window [2, len-2); otherwise the first occurrence of the progressive
marker `ff c2` (so a progressive marker appearing before a baseline one
is not the start); a missing SOI, EOI, or Start-Of-Frame marker raises an
`IOTiffException` for that tile only, and no call changes the handle
(`getTileSt` always preserves it). -/
theorem c4_frame_extraction (h : Handle) (t sz : Nat) (bs : Bytes)
    (hsz : _getJpegFrameSize h t = .ok sz)
    (hrd : h.dir.readRawTileBytes t sz = some bs)
    (hlen : bs.length = sz) :
    (bs.take 2 ≠ SOI → _getJpegFrame h t = .error (.ioErr .missingSOIFrame)) ∧
    (bs.take 2 = SOI → bs.drop (bs.length - 2) ≠ EOI →
      _getJpegFrame h t = .error (.ioErr .missingEOIFrame)) ∧
    (bs.take 2 = SOI → bs.drop (bs.length - 2) = EOI →
      ( ((bs.drop 2).take 2 = SOF0 ∨ (bs.drop 2).take 2 = SOF2) →
          _getJpegFrame h t = .ok ((bs.drop 2).take (bs.length - 2 - 2)) ) ∧
      ( ¬ ((bs.drop 2).take 2 = SOF0 ∨ (bs.drop 2).take 2 = SOF2) →
        (∃ p, 2 ≤ p ∧ p + 2 ≤ bs.length - 2 ∧ (bs.drop p).take 2 = SOF0 ∧
          (∀ k, 2 ≤ k → k < p → (bs.drop k).take 2 ≠ SOF0) ∧
          _getJpegFrame h t = .ok ((bs.drop p).take (bs.length - 2 - p))) ∨
        ((∀ k, 2 ≤ k → k + 2 ≤ bs.length - 2 → (bs.drop k).take 2 ≠ SOF0) ∧
          ((∃ p, 2 ≤ p ∧ p + 2 ≤ bs.length - 2 ∧ (bs.drop p).take 2 = SOF2 ∧
            (∀ k, 2 ≤ k → k < p → (bs.drop k).take 2 ≠ SOF2) ∧
            _getJpegFrame h t = .ok ((bs.drop p).take (bs.length - 2 - p))) ∨
          ((∀ k, 2 ≤ k → k + 2 ≤ bs.length - 2 → (bs.drop k).take 2 ≠ SOF2) ∧
            _getJpegFrame h t = .error (.ioErr .missingSOFMarker)))))) ∧
    (∀ s x y, (getTileSt s x y).2.hnd = s.hnd) := by
  have hbase : ∀ r : Except TiffErr Bytes,
      (if bs.take 2 ≠ SOI then Except.error (TiffErr.ioErr TiffMsg.missingSOIFrame)
       else if bs.drop (bs.length - 2) ≠ EOI then
         Except.error (TiffErr.ioErr TiffMsg.missingEOIFrame)
       else if (bs.drop 2).take 2 = SOF0 ∨ (bs.drop 2).take 2 = SOF2 then
         Except.ok ((bs.drop 2).take (bs.length - 2 - 2))
       else
         match findSub bs SOF0 2 (bs.length - 2) with
         | some p => Except.ok ((bs.drop p).take (bs.length - 2 - p))
         | none =>
           match findSub bs SOF2 2 (bs.length - 2) with
           | some p => Except.ok ((bs.drop p).take (bs.length - 2 - p))
           | none => Except.error (TiffErr.ioErr TiffMsg.missingSOFMarker)) = r →
      _getJpegFrame h t = r := by
    intro r hr
    unfold _getJpegFrame
    rw [hsz]
    dsimp only
    rw [hrd]
    dsimp only
    rw [if_neg (by omega), if_neg (by omega)]
    exact hr
  refine ⟨?_, ?_, ?_, getTileSt_hnd⟩
  · intro hs
    exact hbase _ (by rw [if_pos hs])
  · intro hs he
    exact hbase _ (by rw [if_neg (fun hne => hne hs), if_pos he])
  · intro hs he
    constructor
    · intro hfast
      exact hbase _ (by rw [if_neg (fun hne => hne hs), if_neg (fun hne => hne he),
        if_pos hfast])
    · intro hfast
      cases hf0 : findSub bs SOF0 2 (bs.length - 2) with
      | some p =>
        left
        obtain ⟨hp2, hfit, hmatch, hmin⟩ := findSub_some_spec bs SOF0 2 _ p hf0
        refine ⟨p, hp2, by simpa [SOF0] using hfit, hmatch, ?_, ?_⟩
        · intro k hk2 hkp hk
          exact hmin k hk2 hkp hk
        · exact hbase _ (by rw [if_neg (fun hne => hne hs), if_neg (fun hne => hne he),
            if_neg hfast, hf0])
      | none =>
        right
        have hnone0 := findSub_none_spec bs SOF0 2 _ hf0
        refine ⟨fun k hk2 hkfit => hnone0 k hk2 (by simpa [SOF0] using hkfit), ?_⟩
        cases hf2 : findSub bs SOF2 2 (bs.length - 2) with
        | some p =>
          left
          obtain ⟨hp2, hfit, hmatch, hmin⟩ := findSub_some_spec bs SOF2 2 _ p hf2
          refine ⟨p, hp2, by simpa [SOF2] using hfit, hmatch, ?_, ?_⟩
          · intro k hk2 hkp hk
            exact hmin k hk2 hkp hk
          · exact hbase _ (by rw [if_neg (fun hne => hne hs), if_neg (fun hne => hne he),
              if_neg hfast, hf0, hf2])
        | none =>
          right
          have hnone2 := findSub_none_spec bs SOF2 2 _ hf2
          refine ⟨fun k hk2 hkfit => hnone2 k hk2 (by simpa [SOF2] using hkfit), ?_⟩
          exact hbase _ (by rw [if_neg (fun hne => hne hs), if_neg (fun hne => hne he),
            if_neg hfast, hf0, hf2])

/-- Witness for C4's amended statement: on `cexRaw` the extraction starts
at the first baseline marker position. -/
theorem c4_witness :
    ∃ p, 2 ≤ p ∧ p + 2 ≤ cexRaw.length - 2 ∧ (cexRaw.drop p).take 2 = SOF0 ∧
      (∀ k, 2 ≤ k → k < p → (cexRaw.drop k).take 2 ≠ SOF0) ∧
      _getJpegFrame cexHandle 0 = .ok ((cexRaw.drop p).take (cexRaw.length - 2 - p)) := by
  have h := (c4_frame_extraction cexHandle 0 12 cexRaw rfl rfl rfl).2.2.1 rfl rfl
  rcases h.2 (by decide) with hleft | hright
  · exact hleft
  · exact absurd (by decide : (cexRaw.drop 7).take 2 = SOF0)
      (hright.1 7 (by decide) (by decide))

theorem frameSize_ok_lt (h : Handle) (t sz : Nat)
    (hok : _getJpegFrameSize h t = .ok sz) : t < numberOfTiles h := by
  unfold _getJpegFrameSize at hok
  by_cases hb : numberOfTiles h ≤ t
  · rw [if_pos hb] at hok; cases hok
  · omega

/-- C5: the element width of the tile-byte-count table is introspected
from the container's field type — `TIFF_LONG8` gives `ctypes.c_uint64`,
`TIFF_SHORT` gives `ctypes.c_uint16`, anything else makes the read fail
rather than assume a width — and the per-tile raw byte length is the
element read from the array's memory at the introspected width. -/
theorem c5_byte_counts_introspected (h : Handle) :
    (_getTileByteCountsType h = .ok .c_uint64 ↔
      h.dir.tileByteCountsFieldType = TIFF_LONG8) ∧
    (_getTileByteCountsType h = .ok .c_uint16 ↔
      h.dir.tileByteCountsFieldType = TIFF_SHORT) ∧
    (h.dir.tileByteCountsFieldType ≠ TIFF_LONG8 →
      h.dir.tileByteCountsFieldType ≠ TIFF_SHORT →
      ∀ t, _getJpegFrameSize h t = .error (.invalidOperation .tileNumOutOfRange) ∨
        _getJpegFrameSize h t =
          .error (.ioErr (.invalidByteCountsType h.dir.tileByteCountsFieldType))) ∧
    (∀ t ty mem, _getTileByteCountsType h = .ok ty →
      h.dir.tileByteCountsMem = some mem → t < numberOfTiles h →
      _getJpegFrameSize h t =
        .ok (decodeLE ((mem.drop (sizeofCType ty * t)).take (sizeofCType ty)))) := by
  refine ⟨?_, ?_, ?_, ?_⟩
  · unfold _getTileByteCountsType
    by_cases h1 : h.dir.tileByteCountsFieldType = TIFF_LONG8
    · simp [h1]
    · rw [if_neg h1]
      by_cases h2 : h.dir.tileByteCountsFieldType = TIFF_SHORT
      · simp [h2]
        decide
      · simp [h2, h1]
  · unfold _getTileByteCountsType
    by_cases h1 : h.dir.tileByteCountsFieldType = TIFF_LONG8
    · simp [h1]
      decide
    · rw [if_neg h1]
      by_cases h2 : h.dir.tileByteCountsFieldType = TIFF_SHORT
      · simp [h2]
      · simp [h2, h1]
  · intro h1 h2 t
    unfold _getJpegFrameSize
    by_cases hb : numberOfTiles h ≤ t
    · rw [if_pos hb]
      exact Or.inl rfl
    · rw [if_neg hb]
      unfold _getTileByteCountsType
      rw [if_neg h1, if_neg h2]
      exact Or.inr rfl
  · intro t ty mem hty hmem hlt
    unfold _getJpegFrameSize
    rw [if_neg (by omega), hty]
    dsimp only
    rw [hmem]

/-- Witness for C5: the same declared size 7 read through a 64-bit
element on `handle64` and through a 16-bit element on `goodHandle`. -/
theorem c5_witness :
    _getJpegFrameSize handle64 0 =
      .ok (decodeLE ((([7, 0, 0, 0, 0, 0, 0, 0] : Bytes).drop (sizeofCType .c_uint64 * 0)).take
        (sizeofCType .c_uint64))) ∧
    _getJpegFrameSize goodHandle 0 =
      .ok (decodeLE ((([7, 0] : Bytes).drop (sizeofCType .c_uint16 * 0)).take
        (sizeofCType .c_uint16))) :=
  ⟨(c5_byte_counts_introspected handle64).2.2.2 0 .c_uint64 _ rfl rfl (by decide),
   (c5_byte_counts_introspected goodHandle).2.2.2 0 .c_uint16 _ rfl rfl (by decide)⟩

/-- C6: tile lookup converts a (column, row) tile index to the pixel
coordinates (x times tileSize, y times tileSize) and asks the container
whether a tile exists there (`TIFFCheckTile`); when none does, it fails
with the RangeError-class `InvalidOperationTiffException` whose message
is the tile-does-not-exist text — never a server-side `IOTiffException` —
and `getTile` propagates that failure. -/
theorem c6_tile_lookup (h : Handle) (x y : Nat) :
    (x * h.tileSize < h.imageWidth ∧ y * h.tileSize < h.imageHeight →
      _toTileNum h x y = .ok (computeTile h (x * h.tileSize) (y * h.tileSize))) ∧
    (h.imageWidth ≤ x * h.tileSize ∨ h.imageHeight ≤ y * h.tileSize →
      _toTileNum h x y = .error (.invalidOperation (.tileDoesNotExist x y)) ∧
      getTile h x y = .error (.invalidOperation (.tileDoesNotExist x y)) ∧
      ∀ m, _toTileNum h x y ≠ .error (.ioErr m)) := by
  constructor
  · intro ⟨hx, hy⟩
    unfold _toTileNum
    rw [if_neg (by simp [checkTile, hx, hy])]
  · intro hout
    have hck : checkTile h (x * h.tileSize) (y * h.tileSize) = false := by
      simp [checkTile]
      omega
    have ht : _toTileNum h x y = .error (.invalidOperation (.tileDoesNotExist x y)) := by
      unfold _toTileNum
      rw [if_pos hck]
    refine ⟨ht, ?_, ?_⟩
    · unfold getTile
      rw [ht]
    · intro m heq
      rw [ht] at heq
      cases heq

/-- Witness for C6: on the one-tile 16-by-16 `goodHandle`, column 5 does
not exist and fails with the tile-does-not-exist error, while tile (0, 0)
resolves to its computed tile number. -/
theorem c6_witness :
    (_toTileNum goodHandle 5 0 = .error (.invalidOperation (.tileDoesNotExist 5 0)) ∧
      getTile goodHandle 5 0 = .error (.invalidOperation (.tileDoesNotExist 5 0))) ∧
    _toTileNum goodHandle 0 0 =
      .ok (computeTile goodHandle (0 * goodHandle.tileSize) (0 * goodHandle.tileSize)) := by
  have hmiss := (c6_tile_lookup goodHandle 5 0).2 (Or.inl (by decide))
  exact ⟨⟨hmiss.1, hmiss.2.1⟩, (c6_tile_lookup goodHandle 0 0).1 (by decide)⟩

/-- C7: the shared JPEG table blob is computed at most once per handle
and cached (`instanceLruCache(1)`, modelled from the spec since
`cache.py` is not under src/): from a coherent state, every fetch returns
the one value `_getJpegTables` has for the handle, a repeated fetch
returns the identical value, a successful computation fills the cache so
the next fetch does not recompute (the state, count included, is
unchanged), and every successful `getTile` embeds exactly this blob. -/
theorem c7_tables_cached (s : HandleState) (hc : Coherent s) :
    (getJpegTablesCached s).1 = _getJpegTables s.hnd ∧
    (getJpegTablesCached (getJpegTablesCached s).2).1 = (getJpegTablesCached s).1 ∧
    (∀ tb, _getJpegTables s.hnd = .ok tb → s.tablesCache = none →
      (getJpegTablesCached s).2.computeCount = s.computeCount + 1 ∧
      getJpegTablesCached (getJpegTablesCached s).2 =
        (.ok tb, (getJpegTablesCached s).2)) ∧
    (∀ x y bs, (getTileSt s x y).1 = .ok bs →
      ∃ tb frame, _getJpegTables s.hnd = .ok tb ∧
        bs = SOI ++ tb ++ pad4 ++ frame ++ EOI) := by
  have hs2 : (getJpegTablesCached s).2.hnd = s.hnd := cached_hnd s
  have hco2 : Coherent (getJpegTablesCached s).2 := cached_coherent s hc
  refine ⟨cached_val s hc, ?_, ?_, ?_⟩
  · rw [cached_val _ hco2, hs2, cached_val s hc]
  · intro tb htb hnone
    have hfill := cached_fills s tb hnone htb
    refine ⟨hfill.2, ?_⟩
    exact cached_hit _ _ hfill.1
  · intro x y bs hok
    rw [getTileSt_val s x y hc] at hok
    obtain ⟨tileNum, tables, frame, _, htb, _, hshape⟩ :=
      getTile_ok_decomp s.hnd x y bs hok
    exact ⟨tables, frame, htb, hshape⟩

/-- Witness for C7 on a fresh state over `goodDir`: the blob is computed
on the first fetch (count 1), the second fetch returns the identical
value without recomputing, and a concrete `getTile` embeds it. -/
theorem c7_witness :
    (getJpegTablesCached freshState).1 = _getJpegTables freshState.hnd ∧
    (getJpegTablesCached (getJpegTablesCached freshState).2).1 =
      (getJpegTablesCached freshState).1 ∧
    (getJpegTablesCached freshState).2.computeCount = 1 ∧
    getJpegTablesCached (getJpegTablesCached freshState).2 =
      (.ok [0xff, 0xdb, 0x01], (getJpegTablesCached freshState).2) ∧
    (∃ tb frame, _getJpegTables freshState.hnd = .ok tb ∧
      goodTileBytes = SOI ++ tb ++ pad4 ++ frame ++ EOI) := by
  have h := c7_tables_cached freshState (Or.inl rfl)
  have h3 := h.2.2.1 [0xff, 0xdb, 0x01] rfl rfl
  exact ⟨h.1, h.2.1, h3.1, h3.2, h.2.2.2 0 0 goodTileBytes rfl⟩

/-- C8 (spec-modelled: the level arithmetic lives in the tile-source base
module, not under src/, and is checked against the expectations of
`plugin_tests/tiles_test.py`): for sizeX 58368, sizeY 12288 and 256-pixel
square tiles, the synthetic level count is 9 (with 228 the ceiling
quotient and 2 to the 7 below 228, at most 2 to the 8), level 8's grid is
228 by 48, the four grid-corner tiles of level 8 are valid, and 9 is not
a valid level. -/
theorem c8_pyramid_levels :
    specLevels 58368 12288 256 = 9 ∧
    howmany (max 58368 12288) 256 = 228 ∧
    2 ^ 7 < 228 ∧ (228 : Nat) ≤ 2 ^ 8 ∧
    specTilesAcross 58368 256 9 8 = 228 ∧
    specTilesAcross 12288 256 9 8 = 48 ∧
    specValidTile 58368 12288 256 8 0 0 ∧
    specValidTile 58368 12288 256 8 227 0 ∧
    specValidTile 58368 12288 256 8 0 47 ∧
    specValidTile 58368 12288 256 8 227 47 ∧
    ¬ 9 < specLevels 58368 12288 256 := by
  decide

/-- C9: `getTile` is deterministic over an unmodified source: from any
coherent instance state, the stateful call returns the pure function of
the handle, and a second call with identical inputs returns a
byte-identical result. -/
theorem c9_deterministic (s : HandleState) (x y : Nat) (hc : Coherent s) :
    (getTileSt s x y).1 = getTile s.hnd x y ∧
    (getTileSt (getTileSt s x y).2 x y).1 = (getTileSt s x y).1 := by
  refine ⟨getTileSt_val s x y hc, ?_⟩
  rw [getTileSt_val _ x y (getTileSt_coherent s x y hc), getTileSt_hnd s x y,
    getTileSt_val s x y hc]

/-- Witness for C9 at a fresh state over `goodDir` and tile (0, 0). -/
theorem c9_witness :
    (getTileSt freshState 0 0).1 = getTile freshState.hnd 0 0 ∧
    (getTileSt (getTileSt freshState 0 0).2 0 0).1 = (getTileSt freshState 0 0).1 :=
  c9_deterministic freshState 0 0 (Or.inl rfl)

/-- C10: the tile read path is bounds-guarded: a tile number at or past
the container's tile count fails before the byte-count array is indexed;
when the byte-count memory has exactly one element per tile, a successful
size read touches only bytes inside the array (the element window fits
and is full-width); and a raw read returning other than the declared byte
count fails with a buffer underflow or overflow `IOTiffException` before
any slice of the frame buffer is taken. -/
theorem c10_bounds_guarded (h : Handle) (t : Nat) :
    (numberOfTiles h ≤ t →
      _getJpegFrameSize h t = .error (.invalidOperation .tileNumOutOfRange)) ∧
    (∀ ty mem sz, _getTileByteCountsType h = .ok ty →
      h.dir.tileByteCountsMem = some mem →
      mem.length = sizeofCType ty * numberOfTiles h →
      _getJpegFrameSize h t = .ok sz →
      sizeofCType ty * t + sizeofCType ty ≤ mem.length ∧
      ((mem.drop (sizeofCType ty * t)).take (sizeofCType ty)).length =
        sizeofCType ty) ∧
    (∀ sz bs, _getJpegFrameSize h t = .ok sz →
      h.dir.readRawTileBytes t sz = some bs → bs.length ≠ sz →
      (bs.length < sz ∧ _getJpegFrame h t = .error (.ioErr .bufferUnderflow)) ∨
      (sz < bs.length ∧ _getJpegFrame h t = .error (.ioErr .bufferOverflow))) := by
  refine ⟨?_, ?_, ?_⟩
  · intro hb
    unfold _getJpegFrameSize
    rw [if_pos hb]
  · intro ty mem sz _ hmem hmlen hok
    have hlt : t < numberOfTiles h := frameSize_ok_lt h t sz hok
    have hfit : sizeofCType ty * t + sizeofCType ty ≤ mem.length := by
      rw [hmlen]
      calc sizeofCType ty * t + sizeofCType ty = sizeofCType ty * (t + 1) := by ring
        _ ≤ sizeofCType ty * numberOfTiles h := Nat.mul_le_mul_left _ hlt
    refine ⟨hfit, ?_⟩
    rw [List.length_take, List.length_drop]
    omega
  · intro sz bs hsz hrd hne
    have hbase : ∀ r : Except TiffErr Bytes,
        (if bs.length < sz then Except.error (TiffErr.ioErr TiffMsg.bufferUnderflow)
         else if sz < bs.length then Except.error (TiffErr.ioErr TiffMsg.bufferOverflow)
         else if bs.take 2 ≠ SOI then Except.error (TiffErr.ioErr TiffMsg.missingSOIFrame)
         else if bs.drop (bs.length - 2) ≠ EOI then
           Except.error (TiffErr.ioErr TiffMsg.missingEOIFrame)
         else if (bs.drop 2).take 2 = SOF0 ∨ (bs.drop 2).take 2 = SOF2 then
           Except.ok ((bs.drop 2).take (bs.length - 2 - 2))
         else
           match findSub bs SOF0 2 (bs.length - 2) with
           | some p => Except.ok ((bs.drop p).take (bs.length - 2 - p))
           | none =>
             match findSub bs SOF2 2 (bs.length - 2) with
             | some p => Except.ok ((bs.drop p).take (bs.length - 2 - p))
             | none => Except.error (TiffErr.ioErr TiffMsg.missingSOFMarker)) = r →
        _getJpegFrame h t = r := by
      intro r hr
      unfold _getJpegFrame
      rw [hsz]
      dsimp only
      rw [hrd]
      exact hr
    by_cases hu : bs.length < sz
    · exact Or.inl ⟨hu, hbase _ (by rw [if_pos hu])⟩
    · have ho : sz < bs.length := by omega
      exact Or.inr ⟨ho, hbase _ (by rw [if_neg hu, if_pos ho])⟩

/-- Witness for C10: tile number 5 is out of range on the one-tile
`goodHandle`; the 16-bit element window of tile 0 fits its two-byte
array; and the two-byte short read on `shortReadHandle` (declared size 7)
fails with a buffer underflow. -/
theorem c10_witness :
    _getJpegFrameSize goodHandle 5 = .error (.invalidOperation .tileNumOutOfRange) ∧
    (sizeofCType .c_uint16 * 0 + sizeofCType .c_uint16 ≤ ([7, 0] : Bytes).length ∧
      ((([7, 0] : Bytes).drop (sizeofCType .c_uint16 * 0)).take
        (sizeofCType .c_uint16)).length = sizeofCType .c_uint16) ∧
    _getJpegFrame shortReadHandle 0 = .error (.ioErr .bufferUnderflow) := by
  refine ⟨(c10_bounds_guarded goodHandle 5).1 (by decide),
    (c10_bounds_guarded goodHandle 0).2.1 .c_uint16 [7, 0] 7 rfl rfl rfl rfl, ?_⟩
  rcases (c10_bounds_guarded shortReadHandle 0).2.2 7 [0xff, 0xd8] rfl rfl
    (by decide) with hcase | hcase
  · exact hcase.2
  · exact absurd hcase.1 (by decide)

end TiffReader
